import Mathlib

/-!
Shallow embedding of two Linux IIO drivers and the parts of their
collaborators that the verified properties depend on:

* `drivers/iio/dac/adi-axi-dac.c` — the AXI DAC backend adapter
  (namespace `AxiDac`);
* `drivers/iio/dac/ad9739a.c` — the AD9739a DAC frontend driver
  (namespace `Ad9739a`).

Register maps are modelled as functions `Nat → Nat`; bus transactions that
can fail return a result code `Int` in the Linux convention (0 means
success, a negated errno means failure).  The frontend's probe sequence is
embedded as a function from an environment (the outcomes of collaborator
calls and bus transactions, indexed in program order) to a result code plus
a trace of the externally visible events it performed, so that ordering and
gating properties of the calibration state machine can be stated.
-/

namespace DacDrivers

/-- Linux errno values used by the drivers (returned negated). -/
def ENOMEM : Int := 12

/-- errno for device-not-found / unrecognized device. -/
def ENODEV : Int := 19

/-- errno for invalid argument. -/
def EINVAL : Int := 22

/-- errno for a poll that timed out. -/
def ETIMEDOUT : Int := 110

/-- errno for an input/output error on the register bus (EIO). -/
def EIOerr : Int := 5

/-- IIO scalar-attribute selectors, with the numeric values of
`enum iio_chan_info_enum` from the IIO types header (a collaborator header
outside this repository slice; values follow the enum declaration order). -/
def IIO_CHAN_INFO_RAW : Nat := 0

def IIO_CHAN_INFO_SCALE : Nat := 2

def IIO_CHAN_INFO_SAMP_FREQ : Nat := 12

def IIO_CHAN_INFO_FREQUENCY : Nat := 13

def IIO_CHAN_INFO_PHASE : Nat := 14

/-- `IIO_VAL_INT`: the positive return of a successful integer read_raw. -/
def IIO_VAL_INT : Int := 1

namespace AxiDac

/-- `AXI_REG_RSTN` register offset (the backend's reset/control register). -/
def AXI_REG_RSTN : Nat := 0x40

/-- `AXI_REG_RSTN_MMCM_RSTN` = BIT(1). -/
def AXI_REG_RSTN_MMCM_RSTN : Nat := 2

/-- `AXI_REG_RSTN_RSTN` = BIT(0). -/
def AXI_REG_RSTN_RSTN : Nat := 1

/-- `AXI_REG_CHAN_CNTRL_7(c)` = `0x0418 + (c) * 0x40`. -/
def AXI_REG_CHAN_CNTRL_7 (c : Nat) : Nat := 0x418 + c * 0x40

/-- `AXI_DAC_DATA_SEL_MASK` = GENMASK(3, 0). -/
def AXI_DAC_DATA_SEL_MASK : Nat := 0xf

/-- `AXI_DAC_DATA_INTERNAL_TONE` enum value. -/
def AXI_DAC_DATA_INTERNAL_TONE : Nat := 0

/-- `AXI_DAC_DATA_DMA` enum value. -/
def AXI_DAC_DATA_DMA : Nat := 2

/-- `max_register` of `axi_dac_regmap_config`. -/
def MAX_REGISTER : Nat := 0x800

/-- `reg_stride` of `axi_dac_regmap_config`. -/
def REG_STRIDE : Nat := 4

/-- The backend's memory-mapped register block, as a map from register
offset to current value. -/
def Regs : Type := Nat → Nat

/-- Result of a register transaction: a Linux result code and the register
state afterwards. -/
structure RegRes where
  ret : Int
  regs : Regs

/-- Result of a register read. -/
structure ReadRes where
  ret : Int
  val : Nat

/-- Modelled from the spec: the bus transaction layer (`write(reg, val)` of
the regmap collaborator, whose implementation is outside this repository
slice).  It rejects registers outside the accessibility bounds declared by
`axi_dac_regmap_config`: an offset not aligned to `reg_stride` fails with
-EINVAL, an offset above `max_register` fails with -EIO; both leave the
register state untouched.  A 32-bit value is stored otherwise. -/
def regmap_write (regs : Regs) (reg val : Nat) : RegRes :=
  if reg % REG_STRIDE ≠ 0 then ⟨-EINVAL, regs⟩
  else if MAX_REGISTER < reg then ⟨-EIOerr, regs⟩
  else ⟨0, fun r => if r = reg then val % 2 ^ 32 else regs r⟩

/-- Modelled from the spec: the bus transaction layer (`read(reg)`), with
the same accessibility bounds as `regmap_write`. -/
def regmap_read (regs : Regs) (reg : Nat) : ReadRes :=
  if reg % REG_STRIDE ≠ 0 then ⟨-EINVAL, 0⟩
  else if MAX_REGISTER < reg then ⟨-EIOerr, 0⟩
  else ⟨0, regs reg⟩

/-- Modelled from the spec: the bus transaction layer
(`update_bits(reg, mask, val)`): read, merge the masked bits, and write
back only if the value changed.  Accessibility failures leave the state
untouched. -/
def regmap_update_bits (regs : Regs) (reg mask val : Nat) : RegRes :=
  if reg % REG_STRIDE ≠ 0 then ⟨-EINVAL, regs⟩
  else if MAX_REGISTER < reg then ⟨-EIOerr, regs⟩
  else
    let orig := regs reg
    let nw := (orig &&& (0xffffffff ^^^ mask)) ||| (val &&& mask)
    if nw = orig then ⟨0, regs⟩
    else ⟨0, fun r => if r = reg then nw else regs r⟩

/-- `enum iio_backend_data_source` from the backend header. -/
inductive DataSource where
  | internal_cw
  | external
  | data_source_max
deriving DecidableEq, Repr

/-- `axi_dac_disable`: unconditionally write 0 to the reset/control
register.  The C function returns void and ignores the write's result. -/
def axi_dac_disable (regs : Regs) : Regs :=
  (regmap_write regs AXI_REG_RSTN 0).regs

/-- `axi_dac_enable`: release the clock-domain (MMCM) reset, then (after a
settle delay, irrelevant to the register state) assert the full run bit.
`regmap_set_bits(reg, bits)` is `regmap_update_bits(reg, bits, bits)`. -/
def axi_dac_enable (regs : Regs) : RegRes :=
  let r1 := regmap_update_bits regs AXI_REG_RSTN AXI_REG_RSTN_MMCM_RSTN
    AXI_REG_RSTN_MMCM_RSTN
  if r1.ret ≠ 0 then r1
  else regmap_update_bits r1.regs AXI_REG_RSTN
    (AXI_REG_RSTN_RSTN ||| AXI_REG_RSTN_MMCM_RSTN)
    (AXI_REG_RSTN_RSTN ||| AXI_REG_RSTN_MMCM_RSTN)

/-- `axi_dac_data_source_set`: a single masked register-field write keyed by
the channel index; only the two legal sources write, anything else is
-EINVAL.  No channel-range validation is performed by the driver itself. -/
def axi_dac_data_source_set (regs : Regs) (chan : Nat) (data : DataSource) :
    RegRes :=
  match data with
  | .internal_cw =>
      regmap_update_bits regs (AXI_REG_CHAN_CNTRL_7 chan)
        AXI_DAC_DATA_SEL_MASK AXI_DAC_DATA_INTERNAL_TONE
  | .external =>
      regmap_update_bits regs (AXI_REG_CHAN_CNTRL_7 chan)
        AXI_DAC_DATA_SEL_MASK AXI_DAC_DATA_DMA
  | .data_source_max => ⟨-EINVAL, regs⟩

/-- Outcome of the backend's scalar read_raw: result code plus the value
written through the `*val` pointer, if any. -/
structure RawRead where
  ret : Int
  val : Option Int
deriving DecidableEq, Repr

/-- The backend's `ad9739a_read_raw` (in `adi-axi-dac.c`): returns 0 for
scale, frequency and phase without producing any value, -EINVAL
otherwise. -/
def ad9739a_read_raw (mask : Nat) : RawRead :=
  if mask = IIO_CHAN_INFO_SCALE then ⟨0, none⟩
  else if mask = IIO_CHAN_INFO_FREQUENCY then ⟨0, none⟩
  else if mask = IIO_CHAN_INFO_PHASE then ⟨0, none⟩
  else ⟨-EINVAL, none⟩

/-- The backend's `ad9739a_write_raw` (in `adi-axi-dac.c`): returns 0 for
scale, frequency and phase without touching any register, -EINVAL
otherwise. -/
def ad9739a_write_raw (mask : Nat) (val val2 : Int) : Int :=
  if mask = IIO_CHAN_INFO_SCALE then 0
  else if mask = IIO_CHAN_INFO_FREQUENCY then 0
  else if mask = IIO_CHAN_INFO_PHASE then 0
  else -EINVAL

/-- The backend operations table (`struct iio_backend_ops`), with each
optional function pointer either absent (`none`, a NULL pointer in C) or
present.  The buffer operations are modelled by their presence only. -/
structure BackendOps where
  enable : Option (Regs → RegRes)
  disable : Option (Regs → Regs)
  chan_enable : Option (Regs → Nat → RegRes)
  chan_disable : Option (Regs → Nat → RegRes)
  data_format_set : Option (Regs → Nat → Nat → RegRes)
  data_source_set : Option (Regs → Nat → DataSource → RegRes)
  request_buffer : Bool
  free_buffer : Bool
  read_raw : Option (Nat → RawRead)
  write_raw : Option (Nat → Int → Int → Int)

/-- `axi_dac_generic`: the ops table the backend registers.  `chan_enable`,
`chan_disable` and `data_format_set` are not provided.  (The C initializer
names `axi_dac_read_raw`/`axi_dac_write_raw`, which are not defined in the
file; the functions actually defined there are `ad9739a_read_raw` and
`ad9739a_write_raw`, used here.) -/
def axi_dac_generic : BackendOps :=
  { enable := some axi_dac_enable,
    disable := some axi_dac_disable,
    chan_enable := none,
    chan_disable := none,
    data_format_set := none,
    data_source_set := some axi_dac_data_source_set,
    request_buffer := true,
    free_buffer := true,
    read_raw := some ad9739a_read_raw,
    write_raw := some (fun mask val val2 => ad9739a_write_raw mask val val2) }

/-- `ADI_AXI_PCORE_VER(major, minor, patch)`.  Modelled from the spec's
"version-register layout (major/minor/patch packing)"; the packing macro
lives in a collaborator header outside this repository slice. -/
def ADI_AXI_PCORE_VER (mj mn pa : Nat) : Nat := (mj <<< 16) ||| (mn <<< 8) ||| pa

/-- `ADI_AXI_PCORE_VER_MAJOR(version)` = `version >> 16`. -/
def ADI_AXI_PCORE_VER_MAJOR (v : Nat) : Nat := v >>> 16

/-- `ADI_AXI_REG_VERSION` register offset. -/
def ADI_AXI_REG_VERSION : Nat := 0

/-- `axi_dac_9_1_b_info`: the expected core version declared by the
topology match entry (`adi,axi-dac-9.1.b`). -/
def axi_dac_9_1_b_info : Nat := ADI_AXI_PCORE_VER 9 1 98

/-- Collaborator-call outcomes feeding `axi_dac_probe`, in program order. -/
structure ProbeEnv where
  allocOk : Bool
  matchData : Option Nat
  clkRes : Int
  baseRes : Int
  regmapRes : Int
  registerRes : Int

/-- Outcome of `axi_dac_probe`: result code, whether a registry entry was
created (the `devm_iio_backend_register` call succeeded; registration
inserting an entry is modelled from the spec, the registry implementation
being outside this repository slice), and the register state. -/
structure ProbeOut where
  ret : Int
  registered : Bool
  regs : Regs

/-- `axi_dac_probe`: allocate state, fetch the expected version from the
match data, enable the clock, map the register block, force the core into
reset (write 0 to `AXI_REG_RSTN`), read the version register, compare
major versions (mismatch returns -ENODEV before any registration), then
register the backend. -/
def axi_dac_probe (env : ProbeEnv) (regs0 : Regs) : ProbeOut :=
  if !env.allocOk then ⟨-ENOMEM, false, regs0⟩
  else
    match env.matchData with
    | none => ⟨-ENODEV, false, regs0⟩
    | some expected_ver =>
      if env.clkRes ≠ 0 then ⟨env.clkRes, false, regs0⟩
      else if env.baseRes ≠ 0 then ⟨env.baseRes, false, regs0⟩
      else if env.regmapRes ≠ 0 then ⟨env.regmapRes, false, regs0⟩
      else
        let w := regmap_write regs0 AXI_REG_RSTN 0
        if w.ret ≠ 0 then ⟨w.ret, false, w.regs⟩
        else
          let rd := regmap_read w.regs ADI_AXI_REG_VERSION
          if rd.ret ≠ 0 then ⟨rd.ret, false, w.regs⟩
          else if ADI_AXI_PCORE_VER_MAJOR rd.val ≠
              ADI_AXI_PCORE_VER_MAJOR expected_ver then
            ⟨-ENODEV, false, w.regs⟩
          else if env.registerRes ≠ 0 then ⟨env.registerRes, false, w.regs⟩
          else ⟨0, true, w.regs⟩

end AxiDac

namespace Ad9739a

/-- `AD9739A_REG_MODE`. -/
def AD9739A_REG_MODE : Nat := 0

/-- `AD9739A_RESET_MASK` = BIT(5). -/
def AD9739A_RESET_MASK : Nat := 0x20

/-- `AD9739A_REG_LVDS_REC_CNT4`. -/
def AD9739A_REG_LVDS_REC_CNT4 : Nat := 0x13

/-- `AD9739A_FINE_DEL_SKW_MASK` = GENMASK(3, 0). -/
def AD9739A_FINE_DEL_SKW_MASK : Nat := 0xf

/-- `AD9739A_REG_CROSS_CNT1`. -/
def AD9739A_REG_CROSS_CNT1 : Nat := 0x22

/-- `AD9739A_REG_CROSS_CNT2`. -/
def AD9739A_REG_CROSS_CNT2 : Nat := 0x23

/-- `AD9739A_REG_PHS_DET`. -/
def AD9739A_REG_PHS_DET : Nat := 0x24

/-- `AD9739A_REG_MU_DUTY`. -/
def AD9739A_REG_MU_DUTY : Nat := 0x25

/-- `AD9739A_REG_MU_CNT1`. -/
def AD9739A_REG_MU_CNT1 : Nat := 0x26

/-- `AD9739A_MU_EN_MASK` = BIT(0). -/
def AD9739A_MU_EN_MASK : Nat := 1

/-- `AD9739A_REG_MU_CNT2`. -/
def AD9739A_REG_MU_CNT2 : Nat := 0x27

/-- `AD9739A_REG_MU_CNT3`. -/
def AD9739A_REG_MU_CNT3 : Nat := 0x28

/-- `AD9739A_REG_MU_CNT4`. -/
def AD9739A_REG_MU_CNT4 : Nat := 0x29

/-- `AD9739A_MU_CNT4_DEFAULT`: the Mu controller default tuning byte. -/
def AD9739A_MU_CNT4_DEFAULT : Nat := 0xcb

/-- `AD9739A_REG_MU_STAT1` (lock status). -/
def AD9739A_REG_MU_STAT1 : Nat := 0x2a

/-- `AD9739A_REG_ID`. -/
def AD9739A_REG_ID : Nat := 0x35

/-- `AD9739A_ID`: the expected chip ID constant. -/
def AD9739A_ID : Nat := 0x24

/-- `MEGA` from the units header (a collaborator constant): 10^6. -/
def MEGA : Nat := 1000000

/-- `AD9739A_MIN_DAC_CLK` = 1600 * MEGA. -/
def AD9739A_MIN_DAC_CLK : Nat := 1600 * MEGA

/-- `AD9739A_MAX_DAC_CLK` = 2500 * MEGA. -/
def AD9739A_MAX_DAC_CLK : Nat := 2500 * MEGA

/-- `AD9739A_DAC_CLK_RANGE` = MAX - MIN + 1. -/
def AD9739A_DAC_CLK_RANGE : Nat := AD9739A_MAX_DAC_CLK - AD9739A_MIN_DAC_CLK + 1

/-- `AD9739A_LOCK_N_TRIES` (datasheet-recommended retry count). -/
def AD9739A_LOCK_N_TRIES : Nat := 3

/-- 2^64, the modulus of the C `unsigned long` arithmetic involved in the
clock-range check on a 64-bit kernel. -/
def U64_MOD : Nat := 2 ^ 64

/-- Modelled from the spec: `in_range(val, start, len)` of the minmax
collaborator header, which on u64 operands evaluates `(val - start) < len`
with wrap-around unsigned subtraction. -/
def in_range (val start len : Nat) : Bool :=
  (val + U64_MOD - start) % U64_MOD < len

/-- The clock-rate acceptance test performed by `ad9739a_probe`:
`in_range(sample_rate, AD9739A_MIN_DAC_CLK, AD9739A_DAC_CLK_RANGE)`. -/
def ad9739a_clk_ok (rate : Nat) : Bool :=
  in_range rate AD9739A_MIN_DAC_CLK AD9739A_DAC_CLK_RANGE

/-- Externally visible events performed by the frontend's probe path, in
the order they happen.  Register events carry the register offset (and
mask/value where the source fixes them). -/
inductive Ev where
  | clkGetRate (rate : Nat)
  | gpioSet (v : Nat)
  | ndelay (ns : Nat)
  | regRead (reg : Nat)
  | regWrite (reg val : Nat)
  | regSetBits (reg mask : Nat)
  | regClearBits (reg mask : Nat)
  | regUpdateBits (reg mask val : Nat)
  | regMultiWrite (seq : List (Nat × Nat))
  | regPoll (reg : Nat)
  | backendGet
  | requestBuffer
  | deviceRegister
deriving DecidableEq, Repr

/-- `ad9739a_clk_mu_ctrl`: the fixed analog / cross-coupling / Mu
controller register sequence written as one atomic multi-register write. -/
def ad9739a_clk_mu_ctrl : List (Nat × Nat) :=
  [(AD9739A_REG_CROSS_CNT1, 0x0f), (AD9739A_REG_CROSS_CNT2, 0x0f),
   (AD9739A_REG_PHS_DET, 0x30), (AD9739A_REG_MU_DUTY, 0x80),
   (AD9739A_REG_MU_CNT2, 0x44), (AD9739A_REG_MU_CNT3, 0x6c)]

/-- The environment of one frontend probe run: outcomes of collaborator
calls, plus an oracle giving the result (`busRes`, 0 = success, negated
errno otherwise) and, for reads, the value (`busVal`) of the n-th SPI
register transaction, counted in program order from the chip-ID read.  The
lock poll is a bus-layer helper (`poll_until` in the spec); its transaction
result is 0 when the lock bit asserted within the timeout.  `initFall` is
the indeterminate value `ad9739a_init` evaluates to when control falls off
the end of that non-void C function (it has no final return statement). -/
structure Env where
  allocOk : Bool
  clkRes : Int
  clkRate : Nat
  regmapRes : Int
  gpioRes : Int
  gpioPresent : Bool
  busRes : Nat → Int
  busVal : Nat → Nat
  backendRes : Int
  bufferRes : Int
  registerRes : Int
  initFall : Int

/-- Result of one probe step: result code, index of the next unconsumed bus
transaction, and the events performed. -/
structure StepOut where
  ret : Int
  nxt : Nat
  tr : List Ev

/-- `ad9739a_reset`: prefer an optional external reset line (requested
already driven active, held at least 40ns, then released); otherwise do a
register-level soft reset: set the reset bit, hold at least 40ns, clear
it. -/
def ad9739a_reset (env : Env) (n : Nat) : StepOut :=
  if env.gpioRes < 0 then ⟨env.gpioRes, n, []⟩
  else if env.gpioPresent then ⟨0, n, [.gpioSet 1, .ndelay 40, .gpioSet 0]⟩
  else
    let r1 := env.busRes n
    if r1 ≠ 0 then ⟨r1, n + 1, [.regSetBits AD9739A_REG_MODE AD9739A_RESET_MASK]⟩
    else
      let r2 := env.busRes (n + 1)
      ⟨r2, n + 2, [.regSetBits AD9739A_REG_MODE AD9739A_RESET_MASK, .ndelay 40,
        .regClearBits AD9739A_REG_MODE AD9739A_RESET_MASK]⟩

/-- Outcome of the Mu-lock retry loop: an early error return from inside an
iteration, or normal loop exit carrying the final value of `ret`. -/
inductive MuOut where
  | earlyErr (e : Int)
  | fin (ret : Int)
deriving DecidableEq, Repr

/-- State after the Mu-lock loop. -/
structure MuStep where
  out : MuOut
  nxt : Nat
  tr : List Ev

/-- The Mu-lock retry loop body of `ad9739a_init`: per iteration, write the
default tuning byte to `MU_CNT4`, set the search/track enable bit in
`MU_CNT1`, then poll the lock bit of `MU_STAT1` with a bounded timeout;
break out on lock, otherwise retry until the fixed count exhausts. -/
def muLoop (env : Env) : Nat → Nat → Int → MuStep
  | 0, n, ret => ⟨.fin ret, n, []⟩
  | f + 1, n, _ =>
    let r1 := env.busRes n
    if r1 ≠ 0 then
      ⟨.earlyErr r1, n + 1, [.regWrite AD9739A_REG_MU_CNT4 AD9739A_MU_CNT4_DEFAULT]⟩
    else
      let r2 := env.busRes (n + 1)
      if r2 ≠ 0 then
        ⟨.earlyErr r2, n + 2,
          [.regWrite AD9739A_REG_MU_CNT4 AD9739A_MU_CNT4_DEFAULT,
           .regSetBits AD9739A_REG_MU_CNT1 AD9739A_MU_EN_MASK]⟩
      else
        let r3 := env.busRes (n + 2)
        let t : List Ev :=
          [.regWrite AD9739A_REG_MU_CNT4 AD9739A_MU_CNT4_DEFAULT,
           .regSetBits AD9739A_REG_MU_CNT1 AD9739A_MU_EN_MASK,
           .regPoll AD9739A_REG_MU_STAT1]
        if r3 = 0 then ⟨.fin 0, n + 3, t⟩
        else
          let rest := muLoop env f (n + 3) r3
          ⟨rest.out, rest.nxt, t ++ rest.tr⟩

/-- State after the skew-trim loop: an early error, or normal exit. -/
structure SkewStep where
  err : Option Int
  nxt : Nat
  tr : List Ev

/-- The skew-trim loop body of `ad9739a_init`: per iteration one masked
field write of the fixed fine-delay-skew value 2 (`FIELD_PREP` of
GENMASK(3,0) with 2), with no delay and no status poll in between. -/
def skewLoop (env : Env) : Nat → Nat → SkewStep
  | 0, n => ⟨none, n, []⟩
  | f + 1, n =>
    let r := env.busRes n
    if r ≠ 0 then
      ⟨some r, n + 1,
        [.regUpdateBits AD9739A_REG_LVDS_REC_CNT4 AD9739A_FINE_DEL_SKW_MASK 2]⟩
    else
      let rest := skewLoop env f (n + 1)
      ⟨rest.err, rest.nxt,
        [.regUpdateBits AD9739A_REG_LVDS_REC_CNT4 AD9739A_FINE_DEL_SKW_MASK 2]
          ++ rest.tr⟩

/-- Result of `ad9739a_init`.  `ret = none` means control reached the end
of the non-void C function without executing any return statement (the
function has no `return` after the skew-trim loop), so the value the
caller receives is indeterminate. -/
structure InitOut where
  ret : Option Int
  nxt : Nat
  tr : List Ev

/-- `ad9739a_init`: the atomic multi-register analog/Mu configuration
write, then the Mu-lock retry loop (timeout exhaustion is reported via
`dev_err_probe`, passing the poll's error through), then the skew-trim
loop.  After a successful skew-trim loop the C function ends without a
return statement. -/
def ad9739a_init (env : Env) (n : Nat) : InitOut :=
  let r0 := env.busRes n
  let t0 : List Ev := [.regMultiWrite ad9739a_clk_mu_ctrl]
  if r0 ≠ 0 then ⟨some r0, n + 1, t0⟩
  else
    let mu := muLoop env AD9739A_LOCK_N_TRIES (n + 1) 0
    match mu.out with
    | .earlyErr e => ⟨some e, mu.nxt, t0 ++ mu.tr⟩
    | .fin ret =>
      if ret ≠ 0 then ⟨some ret, mu.nxt, t0 ++ mu.tr⟩
      else
        let sk := skewLoop env AD9739A_LOCK_N_TRIES mu.nxt
        match sk.err with
        | some e => ⟨some e, sk.nxt, t0 ++ mu.tr ++ sk.tr⟩
        | none => ⟨none, sk.nxt, t0 ++ mu.tr ++ sk.tr⟩

/-- Result of `ad9739a_probe`: result code and event trace. -/
structure ProbeRes where
  ret : Int
  tr : List Ev

/-- `ad9739a_probe`: allocate the composite device, get and enable the
clock, read its rate and range-check it, build the SPI regmap, read and
compare the chip ID, reset, run `ad9739a_init`, bind the backend, request
the streaming buffer, and register the device.  Each step returns its
error immediately.  The value tested after `ad9739a_init` is the
function's C return value; on the fall-through path that value is the
indeterminate `env.initFall`. -/
def ad9739a_probe (env : Env) : ProbeRes :=
  if !env.allocOk then ⟨-ENOMEM, []⟩
  else if env.clkRes ≠ 0 then ⟨env.clkRes, []⟩
  else
    let t1 : List Ev := [.clkGetRate env.clkRate]
    if !ad9739a_clk_ok env.clkRate then ⟨-EINVAL, t1⟩
    else if env.regmapRes ≠ 0 then ⟨env.regmapRes, t1⟩
    else
      let rid := env.busRes 0
      let t2 := t1 ++ [Ev.regRead AD9739A_REG_ID]
      if rid ≠ 0 then ⟨rid, t2⟩
      else if env.busVal 0 ≠ AD9739A_ID then ⟨-ENODEV, t2⟩
      else
        let rs := ad9739a_reset env 1
        let t3 := t2 ++ rs.tr
        if rs.ret ≠ 0 then ⟨rs.ret, t3⟩
        else
          let ini := ad9739a_init env rs.nxt
          let t4 := t3 ++ ini.tr
          let iret := match ini.ret with
            | some r => r
            | none => env.initFall
          if iret ≠ 0 then ⟨iret, t4⟩
          else
            let t5 := t4 ++ [Ev.backendGet]
            if env.backendRes ≠ 0 then ⟨env.backendRes, t5⟩
            else
              let t6 := t5 ++ [Ev.requestBuffer]
              if env.bufferRes ≠ 0 then ⟨env.bufferRes, t6⟩
              else ⟨env.registerRes, t6 ++ [Ev.deviceRegister]⟩

/-- Outcome of the frontend's `read_raw`: result code, the value produced
(if any), and whether the request was forwarded to the bound backend. -/
structure FrontRawRead where
  ret : Int
  val : Option Int
  backendCalled : Bool
deriving DecidableEq, Repr

/-- The frontend's `ad9739a_read_raw` (in `ad9739a.c`): the sample-rate
attribute is served locally from the rate cached at probe time; any other
attribute is forwarded to the bound backend (`iio_backend_read_raw`,
modelled as invoking the backend's read_raw oracle). -/
def ad9739a_read_raw (sampleRate : Nat) (backRead : Nat → Int × Option Int)
    (mask : Nat) : FrontRawRead :=
  if mask = IIO_CHAN_INFO_SAMP_FREQ then
    ⟨IIO_VAL_INT, some (Int.ofNat sampleRate), false⟩
  else ⟨(backRead mask).1, (backRead mask).2, true⟩

/-- Outcome of the frontend's `write_raw`. -/
structure FrontRawWrite where
  ret : Int
  backendCalled : Bool
deriving DecidableEq, Repr

/-- The frontend's `ad9739a_write_raw` (in `ad9739a.c`): every request,
whatever the attribute, is forwarded to the bound backend
(`iio_backend_write_raw`). -/
def ad9739a_write_raw (backWrite : Nat → Int → Int → Int) (mask : Nat)
    (val val2 : Int) : FrontRawWrite :=
  ⟨backWrite mask val val2, true⟩

/-- The calibration stage an event belongs to, as a position in the order
the probe sequence executes them: 0 ClockValidate, 1 Identify, 2 Reset,
3 AnalogConfig, 4 MuLock, 5 SkewTrim, 6 BackendBind, 7 BufferReady,
8 device registration. -/
def stageIdx : Ev → Nat
  | .clkGetRate _ => 0
  | .regRead _ => 1
  | .gpioSet _ => 2
  | .ndelay _ => 2
  | .regSetBits reg _ => if reg = AD9739A_REG_MODE then 2 else 4
  | .regClearBits _ _ => 2
  | .regMultiWrite _ => 3
  | .regWrite _ _ => 4
  | .regPoll _ => 4
  | .regUpdateBits _ _ _ => 5
  | .backendGet => 6
  | .requestBuffer => 7
  | .deviceRegister => 8

/-- A trace visits stages in nondecreasing order. -/
def stageMono (tr : List Ev) : Prop :=
  tr.Pairwise (fun a b => stageIdx a ≤ stageIdx b)

/-- An environment in which every collaborator call and bus transaction
succeeds, the chip-ID read returns the expected constant, the Mu lock
asserts on the first poll, no external reset line is present, and the
clock reports the given rate. -/
def envAllOk (rate : Nat) : Env :=
  { allocOk := true, clkRes := 0, clkRate := rate, regmapRes := 0,
    gpioRes := 0, gpioPresent := false,
    busRes := fun _ => 0,
    busVal := fun k => if k = 0 then AD9739A_ID else 1,
    backendRes := 0, bufferRes := 0, registerRes := 0, initFall := 0 }

/-- A concrete backend write oracle used to exhibit forwarding. -/
def backWriteNeg7 : Nat → Int → Int → Int := fun _ _ _ => -7

/-- A concrete backend read oracle used to exhibit forwarding. -/
def brInval : Nat → Int × Option Int := fun _ => (-EINVAL, none)

end Ad9739a

namespace AxiDac

/-- An all-zero register block. -/
def zeroRegs : Regs := fun _ => 0

end AxiDac

namespace Ad9739a

/- Helper lemmas about the stages of the frontend probe trace. -/

theorem pairwise_of_const {l : List Ev} {c : Nat}
    (h : ∀ e ∈ l, stageIdx e = c) :
    l.Pairwise (fun a b => stageIdx a ≤ stageIdx b) := by
  induction l with
  | nil => exact List.Pairwise.nil
  | cons a t ih =>
    refine List.Pairwise.cons (fun b hb => ?_) (ih fun e he => h e (by simp [he]))
    rw [h a (by simp), h b (by simp [hb])]

theorem mono_append {t1 t2 : List Ev} (h1 : stageMono t1) (h2 : stageMono t2)
    (h : ∀ a ∈ t1, ∀ b ∈ t2, stageIdx a ≤ stageIdx b) : stageMono (t1 ++ t2) :=
  List.pairwise_append.mpr ⟨h1, h2, h⟩

theorem not_mem_of_stage_ne {l : List Ev} {c : Nat}
    (hl : ∀ e ∈ l, stageIdx e = c) {x : Ev} (hx : stageIdx x ≠ c) : x ∉ l :=
  fun h => hx (hl x h)

theorem reset_stage (env : Env) (n : Nat) :
    ∀ e ∈ (ad9739a_reset env n).tr, stageIdx e = 2 := by
  intro e he
  unfold ad9739a_reset at he
  by_cases h1 : env.gpioRes < 0
  · simp [h1] at he
  · by_cases h2 : env.gpioPresent
    · simp [h1, h2] at he
      rcases he with h | h | h <;> subst h <;> rfl
    · by_cases h3 : env.busRes n ≠ 0
      · simp [h1, h2, h3] at he
        subst he; rfl
      · simp [h1, h2, h3] at he
        rcases he with h | h | h <;> subst h <;> rfl

theorem muLoop_stage (env : Env) :
    ∀ (f n : Nat) (r : Int), ∀ e ∈ (muLoop env f n r).tr, stageIdx e = 4 := by
  intro f
  induction f with
  | zero => intro n r e he; simp [muLoop] at he
  | succ f ih =>
    intro n r e he
    unfold muLoop at he
    by_cases h1 : env.busRes n ≠ 0
    · simp [h1] at he; subst he; rfl
    · by_cases h2 : env.busRes (n + 1) ≠ 0
      · simp [h1, h2] at he
        rcases he with h | h <;> subst h <;> rfl
      · by_cases h3 : env.busRes (n + 2) = 0
        · simp [h1, h2, h3] at he
          rcases he with h | h | h <;> subst h <;> rfl
        · simp [h1, h2, h3] at he
          rcases he with h | h | h | h
          · subst h; rfl
          · subst h; rfl
          · subst h; rfl
          · exact ih (n + 3) (env.busRes (n + 2)) e h

theorem skewLoop_stage (env : Env) :
    ∀ (f n : Nat), ∀ e ∈ (skewLoop env f n).tr, stageIdx e = 5 := by
  intro f
  induction f with
  | zero => intro n e he; simp [skewLoop] at he
  | succ f ih =>
    intro n e he
    unfold skewLoop at he
    by_cases h1 : env.busRes n ≠ 0
    · simp [h1] at he; subst he; rfl
    · simp [h1] at he
      rcases he with h | h
      · subst h; rfl
      · exact ih (n + 1) e h

theorem init_tr_cases (env : Env) (n : Nat) :
    (ad9739a_init env n).tr = [Ev.regMultiWrite ad9739a_clk_mu_ctrl]
    ∨ (ad9739a_init env n).tr = [Ev.regMultiWrite ad9739a_clk_mu_ctrl] ++
        (muLoop env AD9739A_LOCK_N_TRIES (n + 1) 0).tr
    ∨ (ad9739a_init env n).tr = [Ev.regMultiWrite ad9739a_clk_mu_ctrl] ++
        (muLoop env AD9739A_LOCK_N_TRIES (n + 1) 0).tr ++
        (skewLoop env AD9739A_LOCK_N_TRIES
          (muLoop env AD9739A_LOCK_N_TRIES (n + 1) 0).nxt).tr := by
  simp only [ad9739a_init]
  split
  · left; rfl
  · split
    · right; left; rfl
    · split
      · right; left; rfl
      · split
        · right; right; rfl
        · right; right; rfl

theorem init_stage (env : Env) (n : Nat) :
    ∀ e ∈ (ad9739a_init env n).tr, 3 ≤ stageIdx e ∧ stageIdx e ≤ 5 := by
  intro e he
  rcases init_tr_cases env n with h | h | h <;> rw [h] at he <;> simp at he
  · subst he; exact ⟨le_refl 3, by simp [stageIdx]⟩
  · rcases he with he | he
    · subst he; exact ⟨le_refl 3, by simp [stageIdx]⟩
    · rw [muLoop_stage env _ _ _ e he]; omega
  · rcases he with he | he | he
    · subst he; exact ⟨le_refl 3, by simp [stageIdx]⟩
    · rw [muLoop_stage env _ _ _ e he]; omega
    · rw [skewLoop_stage env _ _ e he]; omega

theorem init_mono (env : Env) (n : Nat) : stageMono (ad9739a_init env n).tr := by
  have hmw : stageIdx (Ev.regMultiWrite ad9739a_clk_mu_ctrl) = 3 := rfl
  have hcross1 : ∀ a ∈ [Ev.regMultiWrite ad9739a_clk_mu_ctrl],
      ∀ b ∈ (muLoop env AD9739A_LOCK_N_TRIES (n + 1) 0).tr,
        stageIdx a ≤ stageIdx b := by
    intro a ha b hb
    simp at ha; subst ha
    rw [hmw, muLoop_stage env _ _ _ b hb]; omega
  rcases init_tr_cases env n with h | h | h <;> rw [h]
  · simp [stageMono]
  · exact mono_append (by simp [stageMono])
      (pairwise_of_const (muLoop_stage env _ _ _)) hcross1
  · refine mono_append (mono_append (by simp [stageMono])
      (pairwise_of_const (muLoop_stage env _ _ _)) hcross1)
      (pairwise_of_const (skewLoop_stage env _ _)) ?_
    intro a ha b hb
    rw [skewLoop_stage env _ _ b hb]
    simp at ha
    rcases ha with h1 | h1
    · subst h1; rw [hmw]; omega
    · rw [muLoop_stage env _ _ _ a h1]; omega

theorem muLoop_earlyErr_ne (env : Env) :
    ∀ (f n : Nat) (r e : Int),
      (muLoop env f n r).out = MuOut.earlyErr e → e ≠ 0 := by
  intro f
  induction f with
  | zero => intro n r e h; simp [muLoop] at h
  | succ f ih =>
    intro n r e h
    unfold muLoop at h
    by_cases h1 : env.busRes n ≠ 0
    · simp [h1] at h; rw [← h]; exact h1
    · by_cases h2 : env.busRes (n + 1) ≠ 0
      · simp [h1, h2] at h; rw [← h]; exact h2
      · by_cases h3 : env.busRes (n + 2) = 0
        · simp [h1, h2, h3] at h
        · simp [h1, h2, h3] at h
          exact ih (n + 3) (env.busRes (n + 2)) e h

theorem skewLoop_some_ne (env : Env) :
    ∀ (f n : Nat) (e : Int), (skewLoop env f n).err = some e → e ≠ 0 := by
  intro f
  induction f with
  | zero => intro n e h; simp [skewLoop] at h
  | succ f ih =>
    intro n e h
    unfold skewLoop at h
    by_cases h1 : env.busRes n ≠ 0
    · simp [h1] at h; rw [← h]; exact h1
    · simp [h1] at h
      exact ih (n + 1) e h

theorem init_some_ne (env : Env) (n : Nat) (e : Int)
    (h : (ad9739a_init env n).ret = some e) : e ≠ 0 := by
  simp only [ad9739a_init] at h
  split at h
  · rename_i h0
    simp at h; rw [← h]; exact h0
  · split at h
    · rename_i heq
      simp at h
      rw [← h]
      exact muLoop_earlyErr_ne env _ _ _ _ heq
    · split at h
      · rename_i hr
        simp at h; rw [← h]; exact hr
      · split at h
        · rename_i heq
          simp at h
          rw [← h]
          exact skewLoop_some_ne env _ _ _ heq
        · simp at h

theorem init_muWrite_mem (env : Env) (n : Nat)
    (h : Ev.regWrite AD9739A_REG_MU_CNT4 AD9739A_MU_CNT4_DEFAULT
      ∈ (ad9739a_init env n).tr) : env.busRes n = 0 := by
  by_contra hne
  rw [show (ad9739a_init env n).tr = [Ev.regMultiWrite ad9739a_clk_mu_ctrl] by
    simp only [ad9739a_init]; rw [if_pos hne]] at h
  simp at h

theorem init_skew_mem (env : Env) (n : Nat)
    (h : Ev.regUpdateBits AD9739A_REG_LVDS_REC_CNT4 AD9739A_FINE_DEL_SKW_MASK 2
      ∈ (ad9739a_init env n).tr) :
    (muLoop env AD9739A_LOCK_N_TRIES (n + 1) 0).out = MuOut.fin 0 := by
  simp only [ad9739a_init] at h
  split at h
  · simp at h
  · split at h
    · simp at h
      exact absurd (muLoop_stage env _ _ _ _ h) (by decide)
    · split at h
      · simp at h
        exact absurd (muLoop_stage env _ _ _ _ h) (by decide)
      · rename_i r heq hr
        have hr0 : r = (0 : Int) := by omega
        rw [heq, hr0]

theorem skewLoop_ok (env : Env) :
    ∀ (f n : Nat), (∀ k, n ≤ k → k < n + f → env.busRes k = 0) →
      skewLoop env f n = ⟨none, n + f,
        List.replicate f (Ev.regUpdateBits AD9739A_REG_LVDS_REC_CNT4
          AD9739A_FINE_DEL_SKW_MASK 2)⟩ := by
  intro f
  induction f with
  | zero => intro n _; simp [skewLoop]
  | succ f ih =>
    intro n h
    have h0 : env.busRes n = 0 := h n (le_refl n) (by omega)
    simp only [skewLoop]
    rw [if_neg (by simp [h0])]
    rw [ih (n + 1) (fun k hk1 hk2 => h k (by omega) (by omega))]
    simp [List.replicate_succ, SkewStep.mk.injEq]
    omega

theorem muLoop_first_ok (env : Env) (f n : Nat) (r : Int)
    (h0 : env.busRes n = 0) (h1 : env.busRes (n + 1) = 0)
    (h2 : env.busRes (n + 2) = 0) :
    muLoop env (f + 1) n r = ⟨.fin 0, n + 3,
      [.regWrite AD9739A_REG_MU_CNT4 AD9739A_MU_CNT4_DEFAULT,
       .regSetBits AD9739A_REG_MU_CNT1 AD9739A_MU_EN_MASK,
       .regPoll AD9739A_REG_MU_STAT1]⟩ := by
  simp [muLoop, h0, h1, h2]

end Ad9739a

open Ad9739a AxiDac

/-- C2 (code bug): for the scalar attributes the backend does not actually
implement (scale, frequency, phase), the backend's `read_raw` and
`write_raw` succeed with result 0 as a silent no-op — `read_raw` produces
no value at all — instead of returning -EINVAL as the claim (and the spec's
own contract) requires; only attributes outside that set get -EINVAL. -/
theorem c2_backend_raw_silent_noop :
    AxiDac.ad9739a_read_raw IIO_CHAN_INFO_SCALE = ⟨0, none⟩
    ∧ AxiDac.ad9739a_read_raw IIO_CHAN_INFO_FREQUENCY = ⟨0, none⟩
    ∧ AxiDac.ad9739a_read_raw IIO_CHAN_INFO_PHASE = ⟨0, none⟩
    ∧ AxiDac.ad9739a_write_raw IIO_CHAN_INFO_SCALE 1 0 = 0
    ∧ AxiDac.ad9739a_write_raw IIO_CHAN_INFO_FREQUENCY 1 0 = 0
    ∧ AxiDac.ad9739a_write_raw IIO_CHAN_INFO_PHASE 1 0 = 0
    ∧ AxiDac.ad9739a_read_raw IIO_CHAN_INFO_RAW = ⟨-EINVAL, none⟩ :=
  ⟨rfl, rfl, rfl, rfl, rfl, rfl, rfl⟩

/-- C3 counterexample: the claim is false on the code.  The backend's ops
table provides no `chan_enable` and no `chan_disable` at all (NULL
pointers), so they cannot return InvalidChannel; and `data_source_set`
performs no channel validation of its own: for channel 16 (whose control
register falls outside the register map) it returns the register layer's
-EIO, not -EINVAL, and for channel 1 — outside the composite device's
single-channel range — it succeeds and performs a register write. -/
theorem c3_claimed_channel_check_false :
    AxiDac.axi_dac_generic.chan_enable = none
    ∧ AxiDac.axi_dac_generic.chan_disable = none
    ∧ (AxiDac.axi_dac_data_source_set AxiDac.zeroRegs 16 .external).ret = -EIOerr
    ∧ ¬(AxiDac.axi_dac_data_source_set AxiDac.zeroRegs 16 .external).ret = -EINVAL
    ∧ (AxiDac.axi_dac_data_source_set AxiDac.zeroRegs 1 .external).ret = 0
    ∧ (AxiDac.axi_dac_data_source_set AxiDac.zeroRegs 1 .external).regs
        (AxiDac.AXI_REG_CHAN_CNTRL_7 1) = 2 := by
  refine ⟨rfl, rfl, by decide, by decide, by decide, by decide⟩

/-- C3 (amended): `chan_enable`/`chan_disable` are not implemented by this
backend, and `data_source_set` does no channel-range check of its own; for
every channel index from 16 up, whose control register exceeds the register
map bound, the access is refused by the register layer with -EIO and no
register is written, while an invalid source value yields -EINVAL with no
write for every channel. -/
theorem c3_data_source_set_range (chan : Nat) (regs : AxiDac.Regs)
    (h : 16 ≤ chan) :
    AxiDac.axi_dac_data_source_set regs chan .external = ⟨-EIOerr, regs⟩
    ∧ AxiDac.axi_dac_data_source_set regs chan .internal_cw = ⟨-EIOerr, regs⟩
    ∧ AxiDac.axi_dac_data_source_set regs chan .data_source_max
        = ⟨-EINVAL, regs⟩ := by
  have hal : (AxiDac.AXI_REG_CHAN_CNTRL_7 chan) % AxiDac.REG_STRIDE = 0 := by
    simp [AxiDac.AXI_REG_CHAN_CNTRL_7, AxiDac.REG_STRIDE]; omega
  have hmax : AxiDac.MAX_REGISTER < AxiDac.AXI_REG_CHAN_CNTRL_7 chan := by
    simp [AxiDac.AXI_REG_CHAN_CNTRL_7, AxiDac.MAX_REGISTER]; omega
  refine ⟨?_, ?_, rfl⟩ <;>
    simp [AxiDac.axi_dac_data_source_set, AxiDac.regmap_update_bits, hal, hmax]

/-- C3 witness: the amended statement evaluated at channel 16 on the
all-zero register block. -/
theorem c3_data_source_set_range_witness :
    AxiDac.axi_dac_data_source_set AxiDac.zeroRegs 16 .external
      = ⟨-EIOerr, AxiDac.zeroRegs⟩ :=
  (c3_data_source_set_range 16 AxiDac.zeroRegs (by decide)).1

/-- C4 counterexample: the claim is false on the code.  For the sample-rate
attribute the frontend's `write_raw` is not served locally: it forwards the
request to the bound backend like every other attribute (exhibited by a
backend oracle whose result, -7, becomes the frontend's result). -/
theorem c4_claimed_local_write_false :
    ¬(∀ (bw : Nat → Int → Int → Int) (v v2 : Int),
        (ad9739a_write_raw bw IIO_CHAN_INFO_SAMP_FREQ v v2).backendCalled
          = false) := by
  intro h
  have h1 := h backWriteNeg7 1 0
  simp [Ad9739a.ad9739a_write_raw] at h1

/-- C4 (amended): the frontend's `read_raw` serves the sample-rate
attribute locally from the rate cached at probe time (no backend call) and
forwards every other attribute verbatim to the bound backend, while the
frontend's `write_raw` forwards every attribute — the sample-rate attribute
included — verbatim to the bound backend. -/
theorem c4_raw_forwarding (sr : Nat) (br : Nat → Int × Option Int)
    (bw : Nat → Int → Int → Int) (mask : Nat) (v v2 : Int) :
    (mask = IIO_CHAN_INFO_SAMP_FREQ →
      ad9739a_read_raw sr br mask = ⟨IIO_VAL_INT, some (Int.ofNat sr), false⟩)
    ∧ (mask ≠ IIO_CHAN_INFO_SAMP_FREQ →
      ad9739a_read_raw sr br mask = ⟨(br mask).1, (br mask).2, true⟩)
    ∧ ad9739a_write_raw bw mask v v2 = ⟨bw mask v v2, true⟩ := by
  refine ⟨fun h => ?_, fun h => ?_, rfl⟩ <;> simp [Ad9739a.ad9739a_read_raw, h]

/-- C4 witness: the amended statement evaluated at the sample-rate mask
(served locally) and at the scale mask (forwarded to a concrete backend
oracle). -/
theorem c4_raw_forwarding_witness :
    ad9739a_read_raw 2000000000 brInval IIO_CHAN_INFO_SAMP_FREQ
      = ⟨IIO_VAL_INT, some (Int.ofNat 2000000000), false⟩
    ∧ ad9739a_read_raw 2000000000 brInval IIO_CHAN_INFO_SCALE
      = ⟨(brInval IIO_CHAN_INFO_SCALE).1, (brInval IIO_CHAN_INFO_SCALE).2,
          true⟩ :=
  ⟨(c4_raw_forwarding 2000000000 brInval backWriteNeg7
      IIO_CHAN_INFO_SAMP_FREQ 0 0).1 rfl,
   (c4_raw_forwarding 2000000000 brInval backWriteNeg7
      IIO_CHAN_INFO_SCALE 0 0).2.1 (by decide)⟩

/-- C5 counterexample: the claim is false on the code.  On a fully
successful run, the skew-trim loop of `ad9739a_init` applies the fixed
fine-delay-skew field value three times (`AD9739A_LOCK_N_TRIES` = 3), not
twice. -/
theorem c5_claimed_two_writes_false :
    (ad9739a_init (envAllOk (2000 * MEGA)) 3).tr.count
      (Ev.regUpdateBits AD9739A_REG_LVDS_REC_CNT4 AD9739A_FINE_DEL_SKW_MASK 2)
      = 3
    ∧ ¬((ad9739a_init (envAllOk (2000 * MEGA)) 3).tr.count
      (Ev.regUpdateBits AD9739A_REG_LVDS_REC_CNT4 AD9739A_FINE_DEL_SKW_MASK 2)
      = 2) := by
  decide

/-- C5 (amended): the SkewTrim stage applies the fixed fine-delay-skew
field value (2 in GENMASK(3,0)) exactly three times — the fixed retry count
`AD9739A_LOCK_N_TRIES` = 3 — and its trace consists of those three masked
field writes only: no wait and no status/timeout check occurs between the
repeated writes. -/
theorem c5_skew_trim_three_writes (env : Env) (n : Nat)
    (h : ∀ k, n ≤ k → k < n + 3 → env.busRes k = 0) :
    skewLoop env AD9739A_LOCK_N_TRIES n = ⟨none, n + 3,
      List.replicate 3 (Ev.regUpdateBits AD9739A_REG_LVDS_REC_CNT4
        AD9739A_FINE_DEL_SKW_MASK 2)⟩ :=
  skewLoop_ok env AD9739A_LOCK_N_TRIES n h

/-- C5 witness: the amended statement evaluated on the all-success
environment. -/
theorem c5_skew_trim_three_writes_witness :
    skewLoop (envAllOk (2000 * MEGA)) AD9739A_LOCK_N_TRIES 7 = ⟨none, 10,
      List.replicate 3 (Ev.regUpdateBits AD9739A_REG_LVDS_REC_CNT4
        AD9739A_FINE_DEL_SKW_MASK 2)⟩ :=
  c5_skew_trim_three_writes (envAllOk (2000 * MEGA)) 7
    (fun _ _ _ => rfl)

/-- C6 (code bug): on the all-success path — every register transaction
succeeds and the Mu controller reports lock — control reaches the end of
the non-void C function `ad9739a_init` without executing any return
statement (modelled as result `none`), so the value its caller tests is
indeterminate; the claim (and the caller's use of the value) requires a
defined result of 0. -/
theorem c6_init_missing_return (env : Env) (n : Nat)
    (h : ∀ k, env.busRes k = 0) : (ad9739a_init env n).ret = none := by
  have hm := muLoop_first_ok env 2 (n + 1) 0 (h (n + 1)) (h (n + 1 + 1))
    (h (n + 1 + 2))
  simp only [ad9739a_init]
  rw [if_neg (by simp [h n])]
  rw [show AD9739A_LOCK_N_TRIES = 2 + 1 from rfl, hm]
  simp only
  rw [if_neg (by simp)]
  rw [show (2 + 1 : Nat) = AD9739A_LOCK_N_TRIES from rfl]
  rw [skewLoop_ok env AD9739A_LOCK_N_TRIES (n + 1 + 3) (fun k _ _ => h k)]

/-- C6 witness: the theorem evaluated on the all-success environment. -/
theorem c6_init_missing_return_witness :
    (ad9739a_init (envAllOk (2000 * MEGA)) 3).ret = none :=
  c6_init_missing_return (envAllOk (2000 * MEGA)) 3 (fun _ => rfl)

/-- C9: on the register-level soft-reset path (no external reset line),
`ad9739a_reset` first sets the reset bit of the mode register, then delays
at least the 40 ns minimum hold interval, and only then clears the reset
bit — the three events appear in exactly this order. -/
theorem c9_soft_reset_pulse_order (env : Env) (n : Nat)
    (hg : 0 ≤ env.gpioRes) (hp : env.gpioPresent = false)
    (hb : env.busRes n = 0) :
    (ad9739a_reset env n).tr =
      [Ev.regSetBits AD9739A_REG_MODE AD9739A_RESET_MASK, Ev.ndelay 40,
       Ev.regClearBits AD9739A_REG_MODE AD9739A_RESET_MASK] := by
  simp [ad9739a_reset, hp, hb, Int.not_lt.mpr hg]

/-- C9 witness: the theorem evaluated on the all-success environment. -/
theorem c9_soft_reset_pulse_order_witness :
    (ad9739a_reset (envAllOk (2000 * MEGA)) 1).tr =
      [Ev.regSetBits AD9739A_REG_MODE AD9739A_RESET_MASK, Ev.ndelay 40,
       Ev.regClearBits AD9739A_REG_MODE AD9739A_RESET_MASK] :=
  c9_soft_reset_pulse_order (envAllOk (2000 * MEGA)) 1 (by decide) rfl rfl

/-- C7: when the backend probe reaches the version check and the major
version read from the version register differs from the major version of
the expected version declared by the topology match entry (9, for
`adi,axi-dac-9.1.b`), the probe fails with -ENODEV and the backend is
never registered, so no registry entry is created. -/
theorem c7_version_mismatch_no_register (env : AxiDac.ProbeEnv)
    (regs0 : AxiDac.Regs) (h1 : env.allocOk = true)
    (h2 : env.matchData = some AxiDac.axi_dac_9_1_b_info)
    (h3 : env.clkRes = 0) (h4 : env.baseRes = 0) (h5 : env.regmapRes = 0)
    (h6 : AxiDac.ADI_AXI_PCORE_VER_MAJOR (regs0 AxiDac.ADI_AXI_REG_VERSION)
      ≠ 9) :
    (AxiDac.axi_dac_probe env regs0).ret = -ENODEV
    ∧ (AxiDac.axi_dac_probe env regs0).registered = false := by
  have hw : AxiDac.regmap_write regs0 AxiDac.AXI_REG_RSTN 0 =
      ⟨0, fun r => if r = AxiDac.AXI_REG_RSTN then 0 else regs0 r⟩ := by
    simp [AxiDac.regmap_write, AxiDac.AXI_REG_RSTN, AxiDac.REG_STRIDE,
      AxiDac.MAX_REGISTER]
  have hexp : AxiDac.ADI_AXI_PCORE_VER_MAJOR AxiDac.axi_dac_9_1_b_info = 9 := by
    decide
  simp only [AxiDac.ADI_AXI_REG_VERSION] at h6
  simp only [AxiDac.axi_dac_probe, h1, h2, h3, h4, h5, hw]
  simp [AxiDac.regmap_read, AxiDac.ADI_AXI_REG_VERSION, AxiDac.REG_STRIDE,
    AxiDac.MAX_REGISTER, AxiDac.AXI_REG_RSTN, hexp, h6]

/-- C7 witness: the theorem evaluated on a register block reporting major
version 8 against the expected 9.1.b. -/
theorem c7_version_mismatch_no_register_witness :
    (AxiDac.axi_dac_probe
        ⟨true, some AxiDac.axi_dac_9_1_b_info, 0, 0, 0, 0⟩
        (fun _ => 8 <<< 16)).ret = -ENODEV :=
  (c7_version_mismatch_no_register
    ⟨true, some AxiDac.axi_dac_9_1_b_info, 0, 0, 0, 0⟩
    (fun _ => 8 <<< 16) rfl rfl rfl rfl rfl (by decide)).1

/-- C8: the frontend's clock-rate check accepts exactly the closed interval
[1600 M, 2500 M]: for every rate representable as an unsigned 64-bit
value, the check passes iff the rate lies between the bounds inclusive;
moreover the probe succeeds end to end at both bounds and fails with
-EINVAL (InvalidConfiguration) one unit below the lower and one unit above
the upper bound. -/
theorem c8_clk_range_closed_interval :
    (∀ rate : Nat, rate < U64_MOD →
      (ad9739a_clk_ok rate = true ↔
        AD9739A_MIN_DAC_CLK ≤ rate ∧ rate ≤ AD9739A_MAX_DAC_CLK))
    ∧ (ad9739a_probe (envAllOk AD9739A_MIN_DAC_CLK)).ret = 0
    ∧ (ad9739a_probe (envAllOk AD9739A_MAX_DAC_CLK)).ret = 0
    ∧ (ad9739a_probe (envAllOk (AD9739A_MIN_DAC_CLK - 1))).ret = -EINVAL
    ∧ (ad9739a_probe (envAllOk (AD9739A_MAX_DAC_CLK + 1))).ret = -EINVAL := by
  refine ⟨?_, by decide, by decide, by decide, by decide⟩
  intro rate hlt
  simp only [ad9739a_clk_ok, in_range, AD9739A_MIN_DAC_CLK, AD9739A_MAX_DAC_CLK,
    AD9739A_DAC_CLK_RANGE, MEGA, U64_MOD] at *
  rw [decide_eq_true_eq]
  rcases le_or_lt (1600 * 1000000) rate with hle | hgt
  · have he : rate + 2 ^ 64 - 1600 * 1000000
        = 2 ^ 64 + (rate - 1600 * 1000000) := by omega
    rw [he, Nat.add_mod_left, Nat.mod_eq_of_lt (by omega)]
    omega
  · rw [Nat.mod_eq_of_lt (by omega)]
    omega

/-- C8 witness: the interval characterization evaluated at 2000 M-units. -/
theorem c8_clk_range_closed_interval_witness :
    ad9739a_clk_ok (2000 * MEGA) = true :=
  (c8_clk_range_closed_interval.1 (2000 * MEGA) (by decide)).2 (by decide)

/-- C10: calling `disable()` on a backend whose reset/control register
already holds 0 — as it does after probe, which forces the core into reset
— writes 0 again and leaves the register state unchanged (a no-op); the C
function returns void, so it cannot fail; and `disable` is idempotent on
any register state.  The third conjunct records the probe postcondition:
whenever probe registered the backend, the control register holds 0. -/
theorem c10_disable_idempotent_noop :
    (∀ regs : AxiDac.Regs, regs AxiDac.AXI_REG_RSTN = 0 →
      AxiDac.axi_dac_disable regs = regs)
    ∧ (∀ regs : AxiDac.Regs,
      AxiDac.axi_dac_disable (AxiDac.axi_dac_disable regs)
        = AxiDac.axi_dac_disable regs)
    ∧ (∀ (env : AxiDac.ProbeEnv) (regs0 : AxiDac.Regs),
      (AxiDac.axi_dac_probe env regs0).registered = true →
      (AxiDac.axi_dac_probe env regs0).regs AxiDac.AXI_REG_RSTN = 0) := by
  have hd : ∀ regs : AxiDac.Regs, AxiDac.axi_dac_disable regs =
      fun r => if r = AxiDac.AXI_REG_RSTN then 0 else regs r := by
    intro regs
    simp [AxiDac.axi_dac_disable, AxiDac.regmap_write, AxiDac.AXI_REG_RSTN,
      AxiDac.REG_STRIDE, AxiDac.MAX_REGISTER]
  refine ⟨fun regs h0 => ?_, fun regs => ?_, fun env regs0 hreg => ?_⟩
  · rw [hd]
    funext r
    by_cases hr : r = AxiDac.AXI_REG_RSTN
    · rw [if_pos hr, hr, h0]
    · rw [if_neg hr]
  · rw [hd, hd]
    funext r
    by_cases hr : r = AxiDac.AXI_REG_RSTN <;> simp [hr]
  · simp only [AxiDac.axi_dac_probe] at hreg ⊢
    split at hreg
    · simp at hreg
    · split at hreg
      · simp at hreg
      · split at hreg
        · simp at hreg
        · split at hreg
          · simp at hreg
          · split at hreg
            · simp at hreg
            · split at hreg
              · simp at hreg
              · split at hreg
                · simp at hreg
                · split at hreg
                  · simp at hreg
                  · split at hreg
                    · simp at hreg
                    · simp_all [AxiDac.regmap_write, AxiDac.AXI_REG_RSTN,
                        AxiDac.REG_STRIDE, AxiDac.MAX_REGISTER]

/-- C10 witness: the no-op conjunct evaluated on the all-zero register
block. -/
theorem c10_disable_idempotent_noop_witness :
    AxiDac.axi_dac_disable AxiDac.zeroRegs = AxiDac.zeroRegs :=
  c10_disable_idempotent_noop.1 AxiDac.zeroRegs rfl

namespace Ad9739a

theorem probe_cases (env : Env) :
    (ad9739a_probe env).tr = []
    ∨ (ad9739a_clk_ok env.clkRate = false
        ∧ (ad9739a_probe env).tr = [Ev.clkGetRate env.clkRate])
    ∨ (ad9739a_clk_ok env.clkRate = true
        ∧ (ad9739a_probe env).tr = [Ev.clkGetRate env.clkRate])
    ∨ (ad9739a_clk_ok env.clkRate = true
        ∧ ¬(env.busRes 0 = 0 ∧ env.busVal 0 = AD9739A_ID)
        ∧ (ad9739a_probe env).tr
            = [Ev.clkGetRate env.clkRate, Ev.regRead AD9739A_REG_ID])
    ∨ (ad9739a_clk_ok env.clkRate = true ∧ env.busRes 0 = 0
        ∧ env.busVal 0 = AD9739A_ID ∧ (ad9739a_reset env 1).ret ≠ 0
        ∧ (ad9739a_probe env).tr
            = [Ev.clkGetRate env.clkRate, Ev.regRead AD9739A_REG_ID]
              ++ (ad9739a_reset env 1).tr)
    ∨ (ad9739a_clk_ok env.clkRate = true ∧ env.busRes 0 = 0
        ∧ env.busVal 0 = AD9739A_ID ∧ (ad9739a_reset env 1).ret = 0
        ∧ (ad9739a_probe env).tr
            = [Ev.clkGetRate env.clkRate, Ev.regRead AD9739A_REG_ID]
              ++ (ad9739a_reset env 1).tr
              ++ (ad9739a_init env (ad9739a_reset env 1).nxt).tr)
    ∨ (ad9739a_clk_ok env.clkRate = true ∧ env.busRes 0 = 0
        ∧ env.busVal 0 = AD9739A_ID ∧ (ad9739a_reset env 1).ret = 0
        ∧ (ad9739a_init env (ad9739a_reset env 1).nxt).ret = none
        ∧ env.initFall = 0 ∧ env.backendRes ≠ 0
        ∧ (ad9739a_probe env).tr
            = [Ev.clkGetRate env.clkRate, Ev.regRead AD9739A_REG_ID]
              ++ (ad9739a_reset env 1).tr
              ++ (ad9739a_init env (ad9739a_reset env 1).nxt).tr
              ++ [Ev.backendGet])
    ∨ (ad9739a_clk_ok env.clkRate = true ∧ env.busRes 0 = 0
        ∧ env.busVal 0 = AD9739A_ID ∧ (ad9739a_reset env 1).ret = 0
        ∧ (ad9739a_init env (ad9739a_reset env 1).nxt).ret = none
        ∧ env.initFall = 0 ∧ env.backendRes = 0 ∧ env.bufferRes ≠ 0
        ∧ (ad9739a_probe env).tr
            = [Ev.clkGetRate env.clkRate, Ev.regRead AD9739A_REG_ID]
              ++ (ad9739a_reset env 1).tr
              ++ (ad9739a_init env (ad9739a_reset env 1).nxt).tr
              ++ [Ev.backendGet] ++ [Ev.requestBuffer])
    ∨ (ad9739a_clk_ok env.clkRate = true ∧ env.busRes 0 = 0
        ∧ env.busVal 0 = AD9739A_ID ∧ (ad9739a_reset env 1).ret = 0
        ∧ (ad9739a_init env (ad9739a_reset env 1).nxt).ret = none
        ∧ env.initFall = 0 ∧ env.backendRes = 0 ∧ env.bufferRes = 0
        ∧ (ad9739a_probe env).tr
            = [Ev.clkGetRate env.clkRate, Ev.regRead AD9739A_REG_ID]
              ++ (ad9739a_reset env 1).tr
              ++ (ad9739a_init env (ad9739a_reset env 1).nxt).tr
              ++ [Ev.backendGet] ++ [Ev.requestBuffer]
              ++ [Ev.deviceRegister]) := by
  by_cases hA : env.allocOk = true
  · by_cases hC : env.clkRes = 0
    · by_cases hK : ad9739a_clk_ok env.clkRate = true
      · by_cases hR : env.regmapRes = 0
        · by_cases hRid : env.busRes 0 = 0
          · by_cases hId : env.busVal 0 = AD9739A_ID
            · by_cases hRs : (ad9739a_reset env 1).ret = 0
              · rcases hini : (ad9739a_init env (ad9739a_reset env 1).nxt).ret
                  with _ | r
                · by_cases hF : env.initFall = 0
                  · by_cases hB : env.backendRes = 0
                    · by_cases hBuf : env.bufferRes = 0
                      · refine Or.inr (Or.inr (Or.inr (Or.inr (Or.inr (Or.inr
                          (Or.inr (Or.inr
                          ⟨hK, hRid, hId, hRs, rfl, hF, hB, hBuf, ?_⟩)))))))
                        simp [ad9739a_probe, hA, hC, hK, hR, hRid, hId, hRs,
                          hini, hF, hB, hBuf]
                      · refine Or.inr (Or.inr (Or.inr (Or.inr (Or.inr (Or.inr
                          (Or.inr (Or.inl
                          ⟨hK, hRid, hId, hRs, rfl, hF, hB, hBuf, ?_⟩)))))))
                        simp [ad9739a_probe, hA, hC, hK, hR, hRid, hId, hRs,
                          hini, hF, hB, hBuf]
                    · refine Or.inr (Or.inr (Or.inr (Or.inr (Or.inr (Or.inr
                        (Or.inl ⟨hK, hRid, hId, hRs, rfl, hF, hB, ?_⟩))))))
                      simp [ad9739a_probe, hA, hC, hK, hR, hRid, hId, hRs,
                        hini, hF, hB]
                  · refine Or.inr (Or.inr (Or.inr (Or.inr (Or.inr (Or.inl
                      ⟨hK, hRid, hId, hRs, ?_⟩)))))
                    simp [ad9739a_probe, hA, hC, hK, hR, hRid, hId, hRs,
                      hini, hF]
                · have hr := init_some_ne env (ad9739a_reset env 1).nxt r hini
                  refine Or.inr (Or.inr (Or.inr (Or.inr (Or.inr (Or.inl
                    ⟨hK, hRid, hId, hRs, ?_⟩)))))
                  simp [ad9739a_probe, hA, hC, hK, hR, hRid, hId, hRs,
                    hini, hr]
              · refine Or.inr (Or.inr (Or.inr (Or.inr (Or.inl
                  ⟨hK, hRid, hId, hRs, ?_⟩))))
                simp [ad9739a_probe, hA, hC, hK, hR, hRid, hId, hRs]
            · refine Or.inr (Or.inr (Or.inr (Or.inl ⟨hK, fun hc => hId hc.2, ?_⟩)))
              simp [ad9739a_probe, hA, hC, hK, hR, hRid, hId]
          · refine Or.inr (Or.inr (Or.inr (Or.inl ⟨hK, fun hc => hRid hc.1, ?_⟩)))
            simp [ad9739a_probe, hA, hC, hK, hR, hRid]
        · refine Or.inr (Or.inr (Or.inl ⟨hK, ?_⟩))
          simp [ad9739a_probe, hA, hC, hK, hR]
      · refine Or.inr (Or.inl ⟨by simpa using hK, ?_⟩)
        simp [ad9739a_probe, hA, hC, hK]
    · exact Or.inl (by simp [ad9739a_probe, hA, hC])
  · exact Or.inl (by simp [ad9739a_probe, hA])

theorem probe_mono (env : Env) : stageMono (ad9739a_probe env).tr := by
  have hfront : ∀ a ∈ [Ev.clkGetRate env.clkRate, Ev.regRead AD9739A_REG_ID],
      stageIdx a ≤ 1 := by
    intro a ha
    simp at ha
    rcases ha with h | h <;> subst h <;> simp [stageIdx]
  have hmf : stageMono [Ev.clkGetRate env.clkRate, Ev.regRead AD9739A_REG_ID] := by
    simp [stageMono, stageIdx]
  have hm3 : stageMono ([Ev.clkGetRate env.clkRate, Ev.regRead AD9739A_REG_ID]
      ++ (ad9739a_reset env 1).tr) :=
    mono_append hmf (pairwise_of_const (reset_stage env 1))
      (fun a ha b hb => by
        rw [reset_stage env 1 b hb]; exact le_trans (hfront a ha) (by omega))
  have hle3 : ∀ a ∈ [Ev.clkGetRate env.clkRate, Ev.regRead AD9739A_REG_ID]
      ++ (ad9739a_reset env 1).tr, stageIdx a ≤ 2 := by
    intro a ha
    rcases List.mem_append.mp ha with h | h
    · exact le_trans (hfront a h) (by omega)
    · rw [reset_stage env 1 a h]
  have hm4 : stageMono ([Ev.clkGetRate env.clkRate, Ev.regRead AD9739A_REG_ID]
      ++ (ad9739a_reset env 1).tr
      ++ (ad9739a_init env (ad9739a_reset env 1).nxt).tr) :=
    mono_append hm3 (init_mono env _)
      (fun a ha b hb => le_trans (le_trans (hle3 a ha) (by omega))
        (init_stage env _ b hb).1)
  have hle5 : ∀ a ∈ [Ev.clkGetRate env.clkRate, Ev.regRead AD9739A_REG_ID]
      ++ (ad9739a_reset env 1).tr
      ++ (ad9739a_init env (ad9739a_reset env 1).nxt).tr, stageIdx a ≤ 5 := by
    intro a ha
    rcases List.mem_append.mp ha with h | h
    · exact le_trans (hle3 a h) (by omega)
    · exact (init_stage env _ a h).2
  have hm5 : stageMono ([Ev.clkGetRate env.clkRate, Ev.regRead AD9739A_REG_ID]
      ++ (ad9739a_reset env 1).tr
      ++ (ad9739a_init env (ad9739a_reset env 1).nxt).tr ++ [Ev.backendGet]) :=
    mono_append hm4 (by simp [stageMono])
      (fun a ha b hb => by
        simp at hb; subst hb; exact le_trans (hle5 a ha) (by simp [stageIdx]))
  have hle6 : ∀ a ∈ [Ev.clkGetRate env.clkRate, Ev.regRead AD9739A_REG_ID]
      ++ (ad9739a_reset env 1).tr
      ++ (ad9739a_init env (ad9739a_reset env 1).nxt).tr ++ [Ev.backendGet],
      stageIdx a ≤ 6 := by
    intro a ha
    rcases List.mem_append.mp ha with h | h
    · exact le_trans (hle5 a h) (by omega)
    · simp at h; subst h; simp [stageIdx]
  have hm6 : stageMono ([Ev.clkGetRate env.clkRate, Ev.regRead AD9739A_REG_ID]
      ++ (ad9739a_reset env 1).tr
      ++ (ad9739a_init env (ad9739a_reset env 1).nxt).tr ++ [Ev.backendGet]
      ++ [Ev.requestBuffer]) :=
    mono_append hm5 (by simp [stageMono])
      (fun a ha b hb => by
        simp at hb; subst hb; exact le_trans (hle6 a ha) (by simp [stageIdx]))
  have hle7 : ∀ a ∈ [Ev.clkGetRate env.clkRate, Ev.regRead AD9739A_REG_ID]
      ++ (ad9739a_reset env 1).tr
      ++ (ad9739a_init env (ad9739a_reset env 1).nxt).tr ++ [Ev.backendGet]
      ++ [Ev.requestBuffer], stageIdx a ≤ 7 := by
    intro a ha
    rcases List.mem_append.mp ha with h | h
    · exact le_trans (hle6 a h) (by omega)
    · simp at h; subst h; simp [stageIdx]
  have hm7 : stageMono ([Ev.clkGetRate env.clkRate, Ev.regRead AD9739A_REG_ID]
      ++ (ad9739a_reset env 1).tr
      ++ (ad9739a_init env (ad9739a_reset env 1).nxt).tr ++ [Ev.backendGet]
      ++ [Ev.requestBuffer] ++ [Ev.deviceRegister]) :=
    mono_append hm6 (by simp [stageMono])
      (fun a ha b hb => by
        simp at hb; subst hb; exact le_trans (hle7 a ha) (by simp [stageIdx]))
  rcases probe_cases env with h | ⟨_, h⟩ | ⟨_, h⟩ | ⟨_, _, h⟩ | ⟨_, _, _, _, h⟩
    | ⟨_, _, _, _, h⟩ | ⟨_, _, _, _, _, _, _, h⟩ | ⟨_, _, _, _, _, _, _, _, h⟩
    | ⟨_, _, _, _, _, _, _, _, h⟩ <;> rw [h]
  · simp [stageMono]
  · simp [stageMono]
  · simp [stageMono]
  · exact hmf
  · exact hm3
  · exact hm4
  · exact hm5
  · exact hm6
  · exact hm7

theorem probe_gate_identify (env : Env)
    (h : Ev.regRead AD9739A_REG_ID ∈ (ad9739a_probe env).tr) :
    ad9739a_clk_ok env.clkRate = true := by
  rcases probe_cases env with h1 | ⟨_, h1⟩ | ⟨hk, _⟩ | ⟨hk, _⟩ | ⟨hk, _⟩
    | ⟨hk, _⟩ | ⟨hk, _⟩ | ⟨hk, _⟩ | ⟨hk, _⟩
  · rw [h1] at h; simp at h
  · rw [h1] at h; simp at h
  all_goals exact hk

theorem probe_gate_reset (env : Env)
    (h : Ev.regSetBits AD9739A_REG_MODE AD9739A_RESET_MASK
        ∈ (ad9739a_probe env).tr
      ∨ Ev.gpioSet 1 ∈ (ad9739a_probe env).tr) :
    env.busRes 0 = 0 ∧ env.busVal 0 = AD9739A_ID := by
  rcases probe_cases env with h1 | ⟨_, h1⟩ | ⟨_, h1⟩ | ⟨_, _, h1⟩
    | ⟨_, hb, hv, _, _⟩ | ⟨_, hb, hv, _, _⟩ | ⟨_, hb, hv, _, _, _, _, _⟩
    | ⟨_, hb, hv, _, _, _, _, _, _⟩ | ⟨_, hb, hv, _, _, _, _, _, _⟩
  · rw [h1] at h; simp at h
  · rw [h1] at h; simp at h
  · rw [h1] at h; simp at h
  · rw [h1] at h; simp at h
  all_goals exact ⟨hb, hv⟩

theorem probe_gate_analog (env : Env)
    (h : Ev.regMultiWrite ad9739a_clk_mu_ctrl ∈ (ad9739a_probe env).tr) :
    (ad9739a_reset env 1).ret = 0 := by
  rcases probe_cases env with h1 | ⟨_, h1⟩ | ⟨_, h1⟩ | ⟨_, _, h1⟩
    | ⟨_, _, _, _, h1⟩ | ⟨_, _, _, hrs, _⟩ | ⟨_, _, _, hrs, _, _, _, _⟩
    | ⟨_, _, _, hrs, _, _, _, _, _⟩ | ⟨_, _, _, hrs, _, _, _, _, _⟩
  · rw [h1] at h; simp at h
  · rw [h1] at h; simp at h
  · rw [h1] at h; simp at h
  · rw [h1] at h; simp at h
  · rw [h1] at h
    simp [List.mem_append] at h
    exact absurd h (not_mem_of_stage_ne (reset_stage env 1) (by decide))
  all_goals exact hrs

theorem probe_gate_mu (env : Env)
    (h : Ev.regWrite AD9739A_REG_MU_CNT4 AD9739A_MU_CNT4_DEFAULT
      ∈ (ad9739a_probe env).tr) :
    env.busRes (ad9739a_reset env 1).nxt = 0 := by
  rcases probe_cases env with h1 | ⟨_, h1⟩ | ⟨_, h1⟩ | ⟨_, _, h1⟩
    | ⟨_, _, _, _, h1⟩ | ⟨_, _, _, _, h1⟩ | ⟨_, _, _, _, _, _, _, h1⟩
    | ⟨_, _, _, _, _, _, _, _, h1⟩ | ⟨_, _, _, _, _, _, _, _, h1⟩
  · rw [h1] at h; simp at h
  · rw [h1] at h; simp at h
  · rw [h1] at h; simp at h
  · rw [h1] at h; simp at h
  all_goals
    rw [h1] at h
    simp [List.mem_append] at h
  · exact absurd h (not_mem_of_stage_ne (reset_stage env 1) (by decide))
  all_goals
    rcases h with h | h
    · exact absurd h (not_mem_of_stage_ne (reset_stage env 1) (by decide))
    · exact init_muWrite_mem env _ h

theorem probe_gate_skew (env : Env)
    (h : Ev.regUpdateBits AD9739A_REG_LVDS_REC_CNT4 AD9739A_FINE_DEL_SKW_MASK 2
      ∈ (ad9739a_probe env).tr) :
    (muLoop env AD9739A_LOCK_N_TRIES ((ad9739a_reset env 1).nxt + 1) 0).out
      = MuOut.fin 0 := by
  rcases probe_cases env with h1 | ⟨_, h1⟩ | ⟨_, h1⟩ | ⟨_, _, h1⟩
    | ⟨_, _, _, _, h1⟩ | ⟨_, _, _, _, h1⟩ | ⟨_, _, _, _, _, _, _, h1⟩
    | ⟨_, _, _, _, _, _, _, _, h1⟩ | ⟨_, _, _, _, _, _, _, _, h1⟩
  · rw [h1] at h; simp at h
  · rw [h1] at h; simp at h
  · rw [h1] at h; simp at h
  · rw [h1] at h; simp at h
  all_goals
    rw [h1] at h
    simp [List.mem_append] at h
  · exact absurd h (not_mem_of_stage_ne (reset_stage env 1) (by decide))
  all_goals
    rcases h with h | h
    · exact absurd h (not_mem_of_stage_ne (reset_stage env 1) (by decide))
    · exact init_skew_mem env _ h

theorem probe_gate_backend (env : Env)
    (h : Ev.backendGet ∈ (ad9739a_probe env).tr) :
    (ad9739a_init env (ad9739a_reset env 1).nxt).ret = none
    ∧ env.initFall = 0 := by
  rcases probe_cases env with h1 | ⟨_, h1⟩ | ⟨_, h1⟩ | ⟨_, _, h1⟩
    | ⟨_, _, _, _, h1⟩ | ⟨_, _, _, _, h1⟩ | ⟨_, _, _, _, hini, hF, _, _⟩
    | ⟨_, _, _, _, hini, hF, _, _, _⟩ | ⟨_, _, _, _, hini, hF, _, _, _⟩
  · rw [h1] at h; simp at h
  · rw [h1] at h; simp at h
  · rw [h1] at h; simp at h
  · rw [h1] at h; simp at h
  · rw [h1] at h
    simp [List.mem_append] at h
    exact absurd h (not_mem_of_stage_ne (reset_stage env 1) (by decide))
  · rw [h1] at h
    simp [List.mem_append] at h
    rcases h with h | h
    · exact absurd h (not_mem_of_stage_ne (reset_stage env 1) (by decide))
    · exact absurd (init_stage env _ _ h).2 (by decide)
  all_goals exact ⟨hini, hF⟩

theorem probe_gate_buffer (env : Env)
    (h : Ev.requestBuffer ∈ (ad9739a_probe env).tr) :
    Ev.backendGet ∈ (ad9739a_probe env).tr ∧ env.backendRes = 0 := by
  rcases probe_cases env with h1 | ⟨_, h1⟩ | ⟨_, h1⟩ | ⟨_, _, h1⟩
    | ⟨_, _, _, _, h1⟩ | ⟨_, _, _, _, h1⟩ | ⟨_, _, _, _, _, _, _, h1⟩
    | ⟨_, _, _, _, _, _, hB, _, h1⟩ | ⟨_, _, _, _, _, _, hB, _, h1⟩
  · rw [h1] at h; simp at h
  · rw [h1] at h; simp at h
  · rw [h1] at h; simp at h
  · rw [h1] at h; simp at h
  · rw [h1] at h
    simp [List.mem_append] at h
    exact absurd h (not_mem_of_stage_ne (reset_stage env 1) (by decide))
  · rw [h1] at h
    simp [List.mem_append] at h
    rcases h with h | h
    · exact absurd h (not_mem_of_stage_ne (reset_stage env 1) (by decide))
    · exact absurd (init_stage env _ _ h).2 (by decide)
  · rw [h1] at h
    simp [List.mem_append] at h
    rcases h with h | h
    · exact absurd h (not_mem_of_stage_ne (reset_stage env 1) (by decide))
    · exact absurd (init_stage env _ _ h).2 (by decide)
  all_goals exact ⟨by rw [h1]; simp [List.mem_append], hB⟩

theorem probe_gate_register (env : Env)
    (h : Ev.deviceRegister ∈ (ad9739a_probe env).tr) :
    Ev.requestBuffer ∈ (ad9739a_probe env).tr ∧ env.bufferRes = 0 := by
  rcases probe_cases env with h1 | ⟨_, h1⟩ | ⟨_, h1⟩ | ⟨_, _, h1⟩
    | ⟨_, _, _, _, h1⟩ | ⟨_, _, _, _, h1⟩ | ⟨_, _, _, _, _, _, _, h1⟩
    | ⟨_, _, _, _, _, _, _, hBuf, h1⟩ | ⟨_, _, _, _, _, _, _, hBuf, h1⟩
  · rw [h1] at h; simp at h
  · rw [h1] at h; simp at h
  · rw [h1] at h; simp at h
  · rw [h1] at h; simp at h
  · rw [h1] at h
    simp [List.mem_append] at h
    exact absurd h (not_mem_of_stage_ne (reset_stage env 1) (by decide))
  · rw [h1] at h
    simp [List.mem_append] at h
    rcases h with h | h
    · exact absurd h (not_mem_of_stage_ne (reset_stage env 1) (by decide))
    · exact absurd (init_stage env _ _ h).2 (by decide)
  · rw [h1] at h
    simp [List.mem_append] at h
    rcases h with h | h
    · exact absurd h (not_mem_of_stage_ne (reset_stage env 1) (by decide))
    · exact absurd (init_stage env _ _ h).2 (by decide)
  · rw [h1] at h
    simp [List.mem_append] at h
    rcases h with h | h
    · exact absurd h (not_mem_of_stage_ne (reset_stage env 1) (by decide))
    · exact absurd (init_stage env _ _ h).2 (by decide)
  · exact ⟨by rw [h1]; simp [List.mem_append], hBuf⟩

end Ad9739a

/-- C1 counterexample: the claim is false on the code.  The claimed stage
order puts Identify (the chip-ID read) before ClockValidate, with each
stage gated on the prior; any run performing ClockValidate would then have
performed the ID read.  The environment whose clock reports 0 refutes
this: the probe reads and range-checks the clock rate (ClockValidate runs
and fails) without ever reading the chip ID register. -/
theorem c1_claimed_order_false :
    ¬(∀ env : Env,
        (∃ r, Ev.clkGetRate r ∈ (ad9739a_probe env).tr) →
        Ev.regRead AD9739A_REG_ID ∈ (ad9739a_probe env).tr) := by
  intro h
  exact absurd (h (envAllOk 0) ⟨0, by decide⟩) (by decide)

/-- C1 (amended): the frontend probe executes its stages in the order
ClockValidate, Identify, Reset, AnalogConfig, MuLock, SkewTrim,
BackendBind, BufferReady, registration — ClockValidate comes first, before
Identify and Reset, unlike the claimed order — with each stage gated on
the prior succeeding: every trace visits stages in nondecreasing order;
the ID read happens only if the clock check passed; reset only if the ID
read succeeded and matched the chip-ID constant; the analog multi-write
only if reset returned 0; the MuLock writes only if the multi-write
succeeded; the skew-trim writes only if the Mu-lock loop locked; the
backend bind only if `ad9739a_init` ran to its return-less end and the
resulting indeterminate value read as 0; the buffer request only after a
successful bind; and device registration only after a successful buffer
request. -/
theorem c1_probe_stage_order (env : Env) :
    stageMono (ad9739a_probe env).tr
    ∧ (Ev.regRead AD9739A_REG_ID ∈ (ad9739a_probe env).tr →
        ad9739a_clk_ok env.clkRate = true)
    ∧ ((Ev.regSetBits AD9739A_REG_MODE AD9739A_RESET_MASK
          ∈ (ad9739a_probe env).tr
        ∨ Ev.gpioSet 1 ∈ (ad9739a_probe env).tr) →
        env.busRes 0 = 0 ∧ env.busVal 0 = AD9739A_ID)
    ∧ (Ev.regMultiWrite ad9739a_clk_mu_ctrl ∈ (ad9739a_probe env).tr →
        (ad9739a_reset env 1).ret = 0)
    ∧ (Ev.regWrite AD9739A_REG_MU_CNT4 AD9739A_MU_CNT4_DEFAULT
          ∈ (ad9739a_probe env).tr →
        env.busRes (ad9739a_reset env 1).nxt = 0)
    ∧ (Ev.regUpdateBits AD9739A_REG_LVDS_REC_CNT4 AD9739A_FINE_DEL_SKW_MASK 2
          ∈ (ad9739a_probe env).tr →
        (muLoop env AD9739A_LOCK_N_TRIES ((ad9739a_reset env 1).nxt + 1) 0).out
          = MuOut.fin 0)
    ∧ (Ev.backendGet ∈ (ad9739a_probe env).tr →
        (ad9739a_init env (ad9739a_reset env 1).nxt).ret = none
        ∧ env.initFall = 0)
    ∧ (Ev.requestBuffer ∈ (ad9739a_probe env).tr →
        Ev.backendGet ∈ (ad9739a_probe env).tr ∧ env.backendRes = 0)
    ∧ (Ev.deviceRegister ∈ (ad9739a_probe env).tr →
        Ev.requestBuffer ∈ (ad9739a_probe env).tr ∧ env.bufferRes = 0) :=
  ⟨probe_mono env, fun h => probe_gate_identify env h,
   fun h => probe_gate_reset env h, fun h => probe_gate_analog env h,
   fun h => probe_gate_mu env h, fun h => probe_gate_skew env h,
   fun h => probe_gate_backend env h, fun h => probe_gate_buffer env h,
   fun h => probe_gate_register env h⟩

/-- C1 witness: the amended statement evaluated on the all-success
environment at 2000 M-units: the backend bind event is in the trace, so
the theorem yields that `ad9739a_init` ended without a return statement
and the indeterminate value read as 0. -/
theorem c1_probe_stage_order_witness :
    (ad9739a_init (envAllOk (2000 * MEGA))
      (ad9739a_reset (envAllOk (2000 * MEGA)) 1).nxt).ret = none
    ∧ (envAllOk (2000 * MEGA)).initFall = 0 :=
  (c1_probe_stage_order (envAllOk (2000 * MEGA))).2.2.2.2.2.2.1 (by decide)

end DacDrivers
